import Mathlib

/-!
Verification of the `fancy` cooling-service supervisor, a shallow embedding of
`src/service/src/main.rs`.  The supervisor wires together the configuration
loader, the D-Bus connection, the temperature source, the EC device, the
signal handler, the temperature-sampling task and the EC-manager task, and
persists the final state at shutdown.

Collaborator modules that are not part of the sources (`config`, `ec_control`,
`loader`, `temp`) appear here only through the outcomes of the calls `main`
makes into them; the few facts needed about their internals are modelled from
the specification and marked as such in their doc comments.
-/

deriving instance DecidableEq for Except

namespace Fancy

/-- EC access strategies (raw port I/O, kernel driver device file, firmware
call interface); `EcAccessMode` is persisted in the configuration and selects
a strategy at construction time. -/
inductive EcAccessMode
  | rawPort
  | devFile
  | firmwareCall
  deriving DecidableEq, Repr

/-- Payload of `async_std::io::Error` / `std::io::Error`. -/
structure IoError where
  msg : String
  deriving DecidableEq, Repr

/-- Payload of `temp::SensorError`. -/
structure SensorError where
  msg : String
  deriving DecidableEq, Repr

/-- Payload of `zbus::Error`. -/
structure ZbusError where
  msg : String
  deriving DecidableEq, Repr

/-- Payload of `config::ConfigError`. -/
structure ConfigError where
  msg : String
  deriving DecidableEq, Repr

/-- Payload of `ec_control::EcManagerError`. -/
structure EcManagerError where
  msg : String
  deriving DecidableEq, Repr

/-- The `ServiceError` enum of `main.rs` (lines 33-73): every error `main`
can return, each variant wrapping the error of the collaborator it came
from. -/
inductive ServiceError
  | openDev (source : IoError)
  | ecManagerFailure (source : EcManagerError)
  | sensor (source : SensorError)
  | dbus (source : ZbusError)
  | configErr (source : ConfigError)
  | signalErr (source : IoError)
  | shutdownChannelRecv
  | shutdownChannelSend
  deriving DecidableEq, Repr

/-- Substructure `config.core`: holds the persisted EC access mode
(`config.core.ec_access_mode`, read at line 93 and written at line 183). -/
structure CoreConfig where
  ec_access_mode : EcAccessMode
  deriving DecidableEq, Repr

/-- Substructure `config.fan_config`: the selected fan-configuration name and the last
target speeds (written at lines 178 and 181). -/
structure FanConfig where
  selected_fan_configuration : String
  target_speeds : List Rat
  deriving DecidableEq, Repr

/-- Substructure `config.sensors`: the sensor selection (`config.sensors.only`, read at
line 88 and never written by the supervisor). -/
structure SensorsConfig where
  only : List String
  deriving DecidableEq, Repr

/-- The on-disk service configuration, restricted to the fields the
supervisor reads or writes. -/
structure Config where
  core : CoreConfig
  fan_config : FanConfig
  sensors : SensorsConfig
  deriving DecidableEq, Repr

/-- Modelled from the spec: the built-in default configuration that `main`
falls back to when `Config::load_config` fails (the `config` module is not
under `src/`; §7(e): "falls back to a built-in default configuration"). -/
def Config.default : Config :=
  { core := { ec_access_mode := .rawPort }
    fan_config := { selected_fan_configuration := "", target_speeds := [] }
    sensors := { only := [] } }

/-- Lines 78-80: `Config::load_config().await.unwrap_or_else(|_| Config::default())`. -/
def loadedConfig (r : Except ConfigError Config) : Config :=
  match r with
  | .ok c => c
  | .error _ => Config.default

/-- The `ExternalEvent` type as used by `main.rs`: temperature samples and the
shutdown request. -/
inductive ExternalEvent
  | tempChange (value : Rat)
  | shutdown
  deriving DecidableEq, Repr

/-- Modelled from the spec (§3, the `ec_control` module is not under `src/`):
the internal half of the `Event` union, produced by the command surface. -/
inductive InternalEvent
  | setAuto (value : Bool)
  | setConfig (name : String)
  | setTargetSpeed (index : Nat) (speed : Rat)
  | setTargetSpeeds (speeds : List Rat)
  deriving DecidableEq, Repr

/-- The `Event` union consumed by the EC manager's event loop. -/
inductive Event
  | external (e : ExternalEvent)
  | internal (e : InternalEvent)
  deriving DecidableEq, Repr

/-- The shutdown channel created at line 100 by `channel::bounded(1)`
(`async_std::channel`, i.e. the `async-channel` crate): a multi-producer
multi-consumer queue.  Cloning a receiver shares the same queue, so every
message is delivered to exactly one receiver.  `closed` records that every
sender has been dropped. -/
structure BoolChannel where
  buf : List Bool
  closed : Bool
  deriving DecidableEq, Repr

/-- Outcome of `Receiver::recv().await` on the shutdown channel:
`Ok(value)`, `Err(RecvError)` once the channel is empty and closed, or still
suspended while the channel is empty but open. -/
inductive RecvOutcome
  | msg (value : Bool)
  | recvError
  | stillWaiting
  deriving DecidableEq, Repr

/-- The `Receiver::recv` semantics of the mpmc channel: pops the front message if
one is queued (removing it for every other receiver of the same channel);
otherwise fails iff the channel is closed. -/
def BoolChannel.recv (c : BoolChannel) : RecvOutcome × BoolChannel :=
  match c.buf with
  | v :: rest => (.msg v, { c with buf := rest })
  | [] => (if c.closed then .recvError else .stillWaiting, c)

/-- The `Sender::send` operation on the shutdown channel: enqueues the message. -/
def BoolChannel.send (c : BoolChannel) (v : Bool) : BoolChannel :=
  { c with buf := c.buf ++ [v] }

/-- Dropping the only sender (which happens when the signal-handler task's
async block returns, since it owns `shutdown_tx`) closes the channel. -/
def afterSenderDrop (c : BoolChannel) : BoolChannel :=
  { c with closed := true }

/-- The signals subscribed at line 99. -/
inductive Signal
  | sighup
  | sigterm
  | sigint
  | sigquit
  | otherSig (n : Nat)
  deriving DecidableEq, Repr

/-- Result of running the signal-handler loop over a list of delivered
signals: the shutdown channel as left by the handler, whether
`sig_handle.close()` was called, and the signals left unprocessed after the
`break`. -/
structure SigHandlerResult where
  chan : BoolChannel
  handleClosed : Bool
  leftover : List Signal
  deriving DecidableEq, Repr

/-- The signal-handler loop of lines 102-114: `SIGHUP` falls through with no
action, `SIGTERM`/`SIGINT`/`SIGQUIT` send `true` on the shutdown channel,
close the signal stream and break, and any other signal falls through with
no action. -/
def signalHandlerRun (chan : BoolChannel) : List Signal → SigHandlerResult
  | [] => ⟨chan, false, []⟩
  | s :: rest =>
    match s with
    | .sighup => signalHandlerRun chan rest
    | .sigterm => ⟨chan.send true, true, rest⟩
    | .sigint => ⟨chan.send true, true, rest⟩
    | .sigquit => ⟨chan.send true, true, rest⟩
    | .otherSig _ => signalHandlerRun chan rest

/-- Outcome of one `future::timeout(Duration::from_millis(100),
shutdown_recv.recv())` race in the temperature task (lines 132): the timeout
elapsed (the recv was still waiting), the recv completed with a message, or
the recv completed with `RecvError`. -/
inductive RaceOutcome
  | timedOut
  | gotMsg (value : Bool)
  | chanClosed
  deriving DecidableEq, Repr

/-- How a completed or still-pending `recv` appears through the timeout race:
a pending recv is exactly the case in which the timeout fires. -/
def raceOfRecv : RecvOutcome → RaceOutcome
  | .msg v => .gotMsg v
  | .recvError => .chanClosed
  | .stillWaiting => .timedOut

/-- The temperature-sampling task of lines 130-147, run over a script of race
outcomes.  On a timeout it samples `get_temp` (the `k`-th sample) and, on
success, sends `Event::External(ExternalEvent::TempChange(temp))` to the
manager and loops; a failed sample aborts the task with a `Sensor` error.  On
receiving `true` it breaks with `Ok(())`; on receiving `false` it loops; on
`RecvError` the `?` aborts the task with `ShutdownChannelRecv`.  Returns
`none` while the script runs out with the loop still going, together with
the events sent so far. -/
def tempsRun (getTemp : Nat → Except SensorError Rat) :
    List RaceOutcome → Nat → List Event →
      Option (Except ServiceError Unit) × List Event
  | [], _, sent => (none, sent)
  | o :: rest, k, sent =>
    match o with
    | .timedOut =>
      match getTemp k with
      | .ok t => tempsRun getTemp rest (k + 1) (sent ++ [.external (.tempChange t)])
      | .error e => (some (.error (.sensor e)), sent)
    | .gotMsg v =>
      if v then (some (.ok ()), sent) else tempsRun getTemp rest k sent
    | .chanClosed => (some (.error .shutdownChannelRecv), sent)

/-- The shutdown forwarder spawned inside the manager task (lines 153-159):
it awaits one receive on its clone of the shutdown channel; on any received
message it sends `Event::External(ExternalEvent::Shutdown)` on the manager's
event channel; on `RecvError` the `?` aborts the forwarder without sending
anything.  Returns the events it sent and its result (`none` while still
suspended). -/
def forwarderRun (r : RecvOutcome) :
    List Event × Option (Except ServiceError Unit) :=
  match r with
  | .msg _ => ([.external .shutdown], some (.ok ()))
  | .recvError => ([], some (.error .shutdownChannelRecv))
  | .stillWaiting => ([], none)

/-- Modelled from the spec: the EC manager's event loop
(`manager.event_handler()`; the `ec_control` module is not under `src/`).
§4.4: every event of the merged channel is consumed in order and "the loop
exits only on `Shutdown`; there is no other terminal condition".  Returns the
prefix of events consumed and whether the loop returned. -/
def eventLoopRun : List Event → List Event × Bool
  | [] => ([], false)
  | e :: rest =>
    match e with
    | .external .shutdown => ([e], true)
    | _ =>
      let p := eventLoopRun rest
      (e :: p.1, p.2)

/-- A successfully opened EC device handle; `mode()` is constant after
construction (spec §4.1), captured by `main` at line 97. -/
structure EcDevice where
  mode : EcAccessMode
  deriving DecidableEq, Repr

/-- Lines 93-95: `EcAccess::from_mode(config.core.ec_access_mode)
.or_else(|_| EcAccess::try_default())` — the named strategy's outcome, and
on its failure the outcome of default probing. -/
def openEcDevice (fromModeResult tryDefaultResult : Except IoError EcDevice) :
    Except IoError EcDevice :=
  match fromModeResult with
  | .ok d => .ok d
  | .error _ => tryDefaultResult

/-- Modelled from the spec: `EcAccess::try_default()` (the `ec_control`
module is not under `src/`).  §4.1: it "probes strategies in a fixed priority
order ... and returns the first that succeeds, or fails with a no-accessible-EC
error if none do".  The probe outcomes are given in priority order. -/
def tryDefaultOf (probes : List (Except IoError EcDevice)) :
    Except IoError EcDevice :=
  match probes with
  | [] => .error { msg := "no accessible EC" }
  | .ok d :: _ => .ok d
  | .error _ :: rest => tryDefaultOf rest

/-- The steps of `main`, in program order, used to record execution traces. -/
inductive StepLabel
  | loadConfig
  | dbusConnect
  | requestName
  | tempsNew
  | openEc
  | captureMode
  | signalsNew
  | spawnSignalHandler
  | managerNew
  | loaderRegister
  | spawnTempsTask
  | spawnManagerTask
  | awaitSignalHandler
  | awaitManagerTask
  | awaitTempsTask
  | loaderLookup
  | saveConfig
  deriving DecidableEq, Repr

/-- The outcomes of every fallible collaborator call `main` makes, in program
order; `main`'s control flow is deterministic given these.  The three task
results are the values produced by `.await`ing the corresponding
`task::spawn` handles. -/
structure MainEnv where
  loadConfigResult : Except ConfigError Config
  dbusConnectResult : Except ZbusError Unit
  requestNameResult : Except ZbusError Unit
  tempsNewResult : Except SensorError Unit
  fromModeResult : Except IoError EcDevice
  tryDefaultResult : Except IoError EcDevice
  signalsNewResult : Except IoError Unit
  loaderRegisterResult : Except ZbusError Unit
  signalHandlerResult : Except ServiceError Unit
  managerTaskResult : Except ServiceError (List Rat)
  tempsTaskResult : Except ServiceError Unit
  loaderLookupResult : Except ZbusError (Option String)
  saveResult : Except ConfigError Unit

/-- What an execution of `main` yields: its returned result, the trace of
steps reached, and the configuration passed to `save_config` when that call
was reached. -/
structure MainOutcome where
  result : Except ServiceError Unit
  trace : List StepLabel
  saved : Option Config
  deriving DecidableEq, Repr

/-- The running state of `main`'s straight-line body: the trace so far and
either the value carried forward or the error that ended the run. -/
structure Flow (α : Type) where
  trace : List StepLabel
  st : Except ServiceError α

/-- One supervisor step: if the flow has already failed the step never runs
(the `?` operator has returned from `main`); otherwise the step's label is
recorded and its outcome threaded on. -/
def stepFlow {α β : Type} (f : Flow α) (label : StepLabel)
    (g : α → Except ServiceError β) : Flow β :=
  match f.st with
  | .error e => { trace := f.trace, st := .error e }
  | .ok a => { trace := f.trace ++ [label], st := g a }

/-- Lines 177-184: the configuration written at shutdown — the selected
fan-configuration name is overwritten only when the loader currently holds a
configuration, the target speeds only when the manager's final list is
non-empty, and the EC access mode unconditionally. -/
def persistedConfig (cfg : Config) (mode : EcAccessMode) (lc : Option String)
    (speeds : List Rat) : Config :=
  let cfg1 := match lc with
    | some name =>
      { cfg with fan_config :=
          { cfg.fan_config with selected_fan_configuration := name } }
    | none => cfg
  let cfg2 :=
    if speeds.isEmpty then cfg1
    else { cfg1 with fan_config := { cfg1.fan_config with target_speeds := speeds } }
  { cfg2 with core := { cfg2.core with ec_access_mode := mode } }

/-- Line 78: the configuration is loaded (with default fallback, so this
step cannot fail). -/
def flow1 (_env : MainEnv) : Flow Unit :=
  { trace := [.loadConfig], st := .ok () }

/-- Line 82: `zbus::Connection::system().await.context(DBusSnafu)?`. -/
def flow2 (env : MainEnv) : Flow Unit :=
  stepFlow (flow1 env) .dbusConnect fun _ =>
    match env.dbusConnectResult with
    | .ok _ => .ok ()
    | .error e => .error (.dbus e)

/-- Lines 83-85: `conn.request_name("com.musikid.fancy")`. -/
def flow3 (env : MainEnv) : Flow Unit :=
  stepFlow (flow2 env) .requestName fun _ =>
    match env.requestNameResult with
    | .ok _ => .ok ()
    | .error e => .error (.dbus e)

/-- Lines 88-90: `Temperatures::new(config.sensors.only.clone()).await
.context(SensorSnafu)?`. -/
def flow4 (env : MainEnv) : Flow Unit :=
  stepFlow (flow3 env) .tempsNew fun _ =>
    match env.tempsNewResult with
    | .ok _ => .ok ()
    | .error e => .error (.sensor e)

/-- Lines 93-96: open the EC device, wrapping a failure of both strategies
into `OpenDev`. -/
def flow5 (env : MainEnv) : Flow EcDevice :=
  stepFlow (flow4 env) .openEc fun _ =>
    match openEcDevice env.fromModeResult env.tryDefaultResult with
    | .ok d => .ok d
    | .error e => .error (.openDev e)

/-- Line 97: `let mode = ec_device.mode();`. -/
def flow6 (env : MainEnv) : Flow EcAccessMode :=
  stepFlow (flow5 env) .captureMode fun d => .ok d.mode

/-- Line 99: `Signals::new(&[SIGHUP, SIGTERM, SIGINT, SIGQUIT])
.context(SignalSnafu)?`. -/
def flow7 (env : MainEnv) : Flow EcAccessMode :=
  stepFlow (flow6 env) .signalsNew fun m =>
    match env.signalsNewResult with
    | .ok _ => .ok m
    | .error e => .error (.signalErr e)

/-- Lines 100-117: the shutdown channel is created and the signal handler
spawned (not itself fallible at spawn time). -/
def flow8 (env : MainEnv) : Flow EcAccessMode :=
  stepFlow (flow7 env) .spawnSignalHandler fun m => .ok m

/-- Line 119: `ECManager::new(ec_device, ...)` — the manager takes ownership
of the EC device here. -/
def flow9 (env : MainEnv) : Flow EcAccessMode :=
  stepFlow (flow8 env) .managerNew fun m => .ok m

/-- Lines 121-125: the loader object is registered on the bus. -/
def flow10 (env : MainEnv) : Flow EcAccessMode :=
  stepFlow (flow9 env) .loaderRegister fun m =>
    match env.loaderRegisterResult with
    | .ok _ => .ok m
    | .error e => .error (.dbus e)

/-- Lines 127-147: the temperature-sampling task is spawned. -/
def flow11 (env : MainEnv) : Flow EcAccessMode :=
  stepFlow (flow10 env) .spawnTempsTask fun m => .ok m

/-- Lines 149-163: the manager task is spawned. -/
def flow12 (env : MainEnv) : Flow EcAccessMode :=
  stepFlow (flow11 env) .spawnManagerTask fun m => .ok m

/-- Line 165: `signal_handler.await?`. -/
def flow13 (env : MainEnv) : Flow EcAccessMode :=
  stepFlow (flow12 env) .awaitSignalHandler fun m =>
    match env.signalHandlerResult with
    | .ok _ => .ok m
    | .error e => .error e

/-- Line 166: `let target_speeds = manager_task.await?;` — the manager task
is fully joined here and its final target speeds returned. -/
def flow14 (env : MainEnv) : Flow (EcAccessMode × List Rat) :=
  stepFlow (flow13 env) .awaitManagerTask fun m =>
    match env.managerTaskResult with
    | .ok speeds => .ok (m, speeds)
    | .error e => .error e

/-- Line 167: `temps_task.await?`. -/
def flow15 (env : MainEnv) : Flow (EcAccessMode × List Rat) :=
  stepFlow (flow14 env) .awaitTempsTask fun p =>
    match env.tempsTaskResult with
    | .ok _ => .ok p
    | .error e => .error e

/-- Lines 170-175: look up the loader on the object server and read out its
current configuration name. -/
def flow16 (env : MainEnv) : Flow (EcAccessMode × List Rat × Option String) :=
  stepFlow (flow15 env) .loaderLookup fun p =>
    match env.loaderLookupResult with
    | .ok lc => .ok (p.1, p.2, lc)
    | .error e => .error (.dbus e)

/-- The tail of `main` (lines 169-187): if any earlier step failed, `main`
has already returned its error; otherwise the configuration is patched
(lines 177-184) and `save_config` called (line 185). -/
def finishRun (cfg0 : Config) (saveResult : Except ConfigError Unit)
    (f : Flow (EcAccessMode × List Rat × Option String)) : MainOutcome :=
  match f.st with
  | .error e => { result := .error e, trace := f.trace, saved := none }
  | .ok (m, speeds, lc) =>
    let cfg := persistedConfig cfg0 m lc speeds
    match saveResult with
    | .ok _ =>
      { result := .ok (), trace := f.trace ++ [.saveConfig], saved := some cfg }
    | .error e =>
      { result := .error (.configErr e), trace := f.trace ++ [.saveConfig]
        saved := some cfg }

/-- Shallow embedding of `main` (lines 76-188), assembled from the stages
above and the finishing phase. -/
def mainRun (env : MainEnv) : MainOutcome :=
  finishRun (loadedConfig env.loadConfigResult) env.saveResult (flow16 env)

/-- The trace of a run of `main` that reaches `save_config`. -/
def fullTrace : List StepLabel :=
  [.loadConfig, .dbusConnect, .requestName, .tempsNew, .openEc, .captureMode,
   .signalsNew, .spawnSignalHandler, .managerNew, .loaderRegister,
   .spawnTempsTask, .spawnManagerTask, .awaitSignalHandler,
   .awaitManagerTask, .awaitTempsTask, .loaderLookup, .saveConfig]

/-- A concrete loaded configuration used to evaluate the embedding. -/
def cfgA : Config :=
  { core := { ec_access_mode := .devFile }
    fan_config := { selected_fan_configuration := "Old", target_speeds := [10] }
    sensors := { only := ["CPU"] } }

/-- A concrete environment in which every collaborator call succeeds: two
fans with final target speeds `[42.0, 55.5]`, selected configuration
`"Default"`. -/
def envOk : MainEnv :=
  { loadConfigResult := .ok cfgA
    dbusConnectResult := .ok ()
    requestNameResult := .ok ()
    tempsNewResult := .ok ()
    fromModeResult := .ok { mode := .devFile }
    tryDefaultResult := .ok { mode := .rawPort }
    signalsNewResult := .ok ()
    loaderRegisterResult := .ok ()
    signalHandlerResult := .ok ()
    managerTaskResult := .ok [42, 55.5]
    tempsTaskResult := .ok ()
    loaderLookupResult := .ok (some "Default")
    saveResult := .ok () }

/-- A concrete environment in which the named EC strategy and every probed
default strategy fail. -/
def envFail : MainEnv :=
  { envOk with
    fromModeResult := .error { msg := "named strategy unavailable" }
    tryDefaultResult :=
      tryDefaultOf [.error { msg := "probe 1 failed" }, .error { msg := "probe 2 failed" }] }

section MainLemmas

/-- Running a step on a flow that carries a value appends the label and
applies the step. -/
lemma stepFlow_of_ok {α β : Type} {f : Flow α} {a : α}
    (l : StepLabel) (g : α → Except ServiceError β) (hf : f.st = .ok a) :
    stepFlow f l g = { trace := f.trace ++ [l], st := g a } := by
  simp [stepFlow, hf]

/-- Running a step on an already-failed flow changes nothing. -/
lemma stepFlow_of_err {α β : Type} {f : Flow α} {e : ServiceError}
    (l : StepLabel) (g : α → Except ServiceError β) (hf : f.st = .error e) :
    stepFlow f l g = { trace := f.trace, st := .error e } := by
  simp [stepFlow, hf]

/-- A step on a flow that already carries an error is the identity. -/
lemma stepFlow_err_lit {α β : Type} (t : List StepLabel) (e : ServiceError)
    (l : StepLabel) (g : α → Except ServiceError β) :
    stepFlow { trace := t, st := .error e } l g = { trace := t, st := .error e } :=
  rfl

/-- The finishing phase on a failed flow reports the flow's error and saves
nothing. -/
lemma finishRun_of_err {cfg0 : Config} {s : Except ConfigError Unit}
    {f : Flow (EcAccessMode × List Rat × Option String)} {e : ServiceError}
    (hf : f.st = .error e) :
    finishRun cfg0 s f = { result := .error e, trace := f.trace, saved := none } := by
  obtain ⟨t, st⟩ := f
  simp only at hf
  subst hf
  rfl

/-- The finishing phase on a successful flow records the `save_config` step,
saves the patched configuration, and returns the save result. -/
lemma finishRun_of_ok {cfg0 : Config} {s : Except ConfigError Unit}
    {f : Flow (EcAccessMode × List Rat × Option String)} {m : EcAccessMode}
    {speeds : List Rat} {lc : Option String}
    (hf : f.st = .ok (m, speeds, lc)) :
    finishRun cfg0 s f =
      { result :=
          match s with
          | .ok _ => .ok ()
          | .error e => .error (.configErr e)
        trace := f.trace ++ [.saveConfig]
        saved := some (persistedConfig cfg0 m lc speeds) } := by
  obtain ⟨t, st⟩ := f
  simp only at hf
  subst hf
  cases s <;> rfl

/-- Stage 2 succeeds under the hypotheses accumulated so far. -/
lemma flow2_ok (env : MainEnv)
    (h2 : env.dbusConnectResult = .ok ()) :
    flow2 env = { trace := fullTrace.take 2, st := .ok () } := by
  rw [flow2, flow1, stepFlow_of_ok _ _ rfl]
  simp [h2, fullTrace]

/-- Stage 3 succeeds under the hypotheses accumulated so far. -/
lemma flow3_ok (env : MainEnv)
    (h2 : env.dbusConnectResult = .ok ()) (h3 : env.requestNameResult = .ok ()) :
    flow3 env = { trace := fullTrace.take 3, st := .ok () } := by
  rw [flow3, flow2_ok env h2, stepFlow_of_ok _ _ rfl]
  simp [h3, fullTrace]

/-- Stage 4 succeeds under the hypotheses accumulated so far. -/
lemma flow4_ok (env : MainEnv)
    (h2 : env.dbusConnectResult = .ok ()) (h3 : env.requestNameResult = .ok ()) (h4 : env.tempsNewResult = .ok ()) :
    flow4 env = { trace := fullTrace.take 4, st := .ok () } := by
  rw [flow4, flow3_ok env h2 h3, stepFlow_of_ok _ _ rfl]
  simp [h4, fullTrace]

/-- Stage 5 succeeds under the hypotheses accumulated so far. -/
lemma flow5_ok (env : MainEnv) (d : EcDevice)
    (h2 : env.dbusConnectResult = .ok ()) (h3 : env.requestNameResult = .ok ()) (h4 : env.tempsNewResult = .ok ()) (h5 : openEcDevice env.fromModeResult env.tryDefaultResult = .ok d) :
    flow5 env = { trace := fullTrace.take 5, st := .ok d } := by
  rw [flow5, flow4_ok env h2 h3 h4, stepFlow_of_ok _ _ rfl]
  simp [h5, fullTrace]

/-- Stage 6 succeeds under the hypotheses accumulated so far. -/
lemma flow6_ok (env : MainEnv) (d : EcDevice)
    (h2 : env.dbusConnectResult = .ok ()) (h3 : env.requestNameResult = .ok ()) (h4 : env.tempsNewResult = .ok ()) (h5 : openEcDevice env.fromModeResult env.tryDefaultResult = .ok d) :
    flow6 env = { trace := fullTrace.take 6, st := .ok d.mode } := by
  rw [flow6, flow5_ok env d h2 h3 h4 h5, stepFlow_of_ok _ _ rfl]
  simp [fullTrace]

/-- Stage 7 succeeds under the hypotheses accumulated so far. -/
lemma flow7_ok (env : MainEnv) (d : EcDevice)
    (h2 : env.dbusConnectResult = .ok ()) (h3 : env.requestNameResult = .ok ()) (h4 : env.tempsNewResult = .ok ()) (h5 : openEcDevice env.fromModeResult env.tryDefaultResult = .ok d) (h6 : env.signalsNewResult = .ok ()) :
    flow7 env = { trace := fullTrace.take 7, st := .ok d.mode } := by
  rw [flow7, flow6_ok env d h2 h3 h4 h5, stepFlow_of_ok _ _ rfl]
  simp [h6, fullTrace]

/-- Stage 8 succeeds under the hypotheses accumulated so far. -/
lemma flow8_ok (env : MainEnv) (d : EcDevice)
    (h2 : env.dbusConnectResult = .ok ()) (h3 : env.requestNameResult = .ok ()) (h4 : env.tempsNewResult = .ok ()) (h5 : openEcDevice env.fromModeResult env.tryDefaultResult = .ok d) (h6 : env.signalsNewResult = .ok ()) :
    flow8 env = { trace := fullTrace.take 8, st := .ok d.mode } := by
  rw [flow8, flow7_ok env d h2 h3 h4 h5 h6, stepFlow_of_ok _ _ rfl]
  simp [fullTrace]

/-- Stage 9 succeeds under the hypotheses accumulated so far. -/
lemma flow9_ok (env : MainEnv) (d : EcDevice)
    (h2 : env.dbusConnectResult = .ok ()) (h3 : env.requestNameResult = .ok ()) (h4 : env.tempsNewResult = .ok ()) (h5 : openEcDevice env.fromModeResult env.tryDefaultResult = .ok d) (h6 : env.signalsNewResult = .ok ()) :
    flow9 env = { trace := fullTrace.take 9, st := .ok d.mode } := by
  rw [flow9, flow8_ok env d h2 h3 h4 h5 h6, stepFlow_of_ok _ _ rfl]
  simp [fullTrace]

/-- Stage 10 succeeds under the hypotheses accumulated so far. -/
lemma flow10_ok (env : MainEnv) (d : EcDevice)
    (h2 : env.dbusConnectResult = .ok ()) (h3 : env.requestNameResult = .ok ()) (h4 : env.tempsNewResult = .ok ()) (h5 : openEcDevice env.fromModeResult env.tryDefaultResult = .ok d) (h6 : env.signalsNewResult = .ok ()) (h7 : env.loaderRegisterResult = .ok ()) :
    flow10 env = { trace := fullTrace.take 10, st := .ok d.mode } := by
  rw [flow10, flow9_ok env d h2 h3 h4 h5 h6, stepFlow_of_ok _ _ rfl]
  simp [h7, fullTrace]

/-- Stage 11 succeeds under the hypotheses accumulated so far. -/
lemma flow11_ok (env : MainEnv) (d : EcDevice)
    (h2 : env.dbusConnectResult = .ok ()) (h3 : env.requestNameResult = .ok ()) (h4 : env.tempsNewResult = .ok ()) (h5 : openEcDevice env.fromModeResult env.tryDefaultResult = .ok d) (h6 : env.signalsNewResult = .ok ()) (h7 : env.loaderRegisterResult = .ok ()) :
    flow11 env = { trace := fullTrace.take 11, st := .ok d.mode } := by
  rw [flow11, flow10_ok env d h2 h3 h4 h5 h6 h7, stepFlow_of_ok _ _ rfl]
  simp [fullTrace]

/-- Stage 12 succeeds under the hypotheses accumulated so far. -/
lemma flow12_ok (env : MainEnv) (d : EcDevice)
    (h2 : env.dbusConnectResult = .ok ()) (h3 : env.requestNameResult = .ok ()) (h4 : env.tempsNewResult = .ok ()) (h5 : openEcDevice env.fromModeResult env.tryDefaultResult = .ok d) (h6 : env.signalsNewResult = .ok ()) (h7 : env.loaderRegisterResult = .ok ()) :
    flow12 env = { trace := fullTrace.take 12, st := .ok d.mode } := by
  rw [flow12, flow11_ok env d h2 h3 h4 h5 h6 h7, stepFlow_of_ok _ _ rfl]
  simp [fullTrace]

/-- Stage 13 succeeds under the hypotheses accumulated so far. -/
lemma flow13_ok (env : MainEnv) (d : EcDevice)
    (h2 : env.dbusConnectResult = .ok ()) (h3 : env.requestNameResult = .ok ()) (h4 : env.tempsNewResult = .ok ()) (h5 : openEcDevice env.fromModeResult env.tryDefaultResult = .ok d) (h6 : env.signalsNewResult = .ok ()) (h7 : env.loaderRegisterResult = .ok ()) (h8 : env.signalHandlerResult = .ok ()) :
    flow13 env = { trace := fullTrace.take 13, st := .ok d.mode } := by
  rw [flow13, flow12_ok env d h2 h3 h4 h5 h6 h7, stepFlow_of_ok _ _ rfl]
  simp [h8, fullTrace]

/-- Stage 14 succeeds under the hypotheses accumulated so far. -/
lemma flow14_ok (env : MainEnv) (d : EcDevice) (speeds : List Rat)
    (h2 : env.dbusConnectResult = .ok ()) (h3 : env.requestNameResult = .ok ()) (h4 : env.tempsNewResult = .ok ()) (h5 : openEcDevice env.fromModeResult env.tryDefaultResult = .ok d) (h6 : env.signalsNewResult = .ok ()) (h7 : env.loaderRegisterResult = .ok ()) (h8 : env.signalHandlerResult = .ok ()) (h9 : env.managerTaskResult = .ok speeds) :
    flow14 env = { trace := fullTrace.take 14, st := .ok (d.mode, speeds) } := by
  rw [flow14, flow13_ok env d h2 h3 h4 h5 h6 h7 h8, stepFlow_of_ok _ _ rfl]
  simp [h9, fullTrace]

/-- Stage 15 succeeds under the hypotheses accumulated so far. -/
lemma flow15_ok (env : MainEnv) (d : EcDevice) (speeds : List Rat)
    (h2 : env.dbusConnectResult = .ok ()) (h3 : env.requestNameResult = .ok ()) (h4 : env.tempsNewResult = .ok ()) (h5 : openEcDevice env.fromModeResult env.tryDefaultResult = .ok d) (h6 : env.signalsNewResult = .ok ()) (h7 : env.loaderRegisterResult = .ok ()) (h8 : env.signalHandlerResult = .ok ()) (h9 : env.managerTaskResult = .ok speeds) (h10 : env.tempsTaskResult = .ok ()) :
    flow15 env = { trace := fullTrace.take 15, st := .ok (d.mode, speeds) } := by
  rw [flow15, flow14_ok env d speeds h2 h3 h4 h5 h6 h7 h8 h9, stepFlow_of_ok _ _ rfl]
  simp [h10, fullTrace]

/-- Stage 16 succeeds under the hypotheses accumulated so far. -/
lemma flow16_ok (env : MainEnv) (d : EcDevice) (speeds : List Rat) (lc : Option String)
    (h2 : env.dbusConnectResult = .ok ()) (h3 : env.requestNameResult = .ok ()) (h4 : env.tempsNewResult = .ok ()) (h5 : openEcDevice env.fromModeResult env.tryDefaultResult = .ok d) (h6 : env.signalsNewResult = .ok ()) (h7 : env.loaderRegisterResult = .ok ()) (h8 : env.signalHandlerResult = .ok ()) (h9 : env.managerTaskResult = .ok speeds) (h10 : env.tempsTaskResult = .ok ()) (h11 : env.loaderLookupResult = .ok lc) :
    flow16 env = { trace := fullTrace.take 16, st := .ok (d.mode, speeds, lc) } := by
  rw [flow16, flow15_ok env d speeds h2 h3 h4 h5 h6 h7 h8 h9 h10, stepFlow_of_ok _ _ rfl]
  simp [h11, fullTrace]

/-- When every collaborator call up to the loader lookup succeeds, `main`
runs its full trace, saves the patched configuration, and returns the save
result. -/
lemma mainRun_ok (env : MainEnv) (d : EcDevice) (speeds : List Rat)
    (lc : Option String)
    (h2 : env.dbusConnectResult = .ok ()) (h3 : env.requestNameResult = .ok ())
    (h4 : env.tempsNewResult = .ok ())
    (h5 : openEcDevice env.fromModeResult env.tryDefaultResult = .ok d)
    (h6 : env.signalsNewResult = .ok ()) (h7 : env.loaderRegisterResult = .ok ())
    (h8 : env.signalHandlerResult = .ok ())
    (h9 : env.managerTaskResult = .ok speeds)
    (h10 : env.tempsTaskResult = .ok ())
    (h11 : env.loaderLookupResult = .ok lc) :
    mainRun env =
      { result :=
          match env.saveResult with
          | .ok _ => .ok ()
          | .error e => .error (.configErr e)
        trace := fullTrace
        saved :=
          some (persistedConfig (loadedConfig env.loadConfigResult) d.mode lc
            speeds) } := by
  rw [mainRun, flow16_ok env d speeds lc h2 h3 h4 h5 h6 h7 h8 h9 h10 h11,
    finishRun_of_ok rfl]
  cases env.saveResult <;> simp [fullTrace]

/-- Shape of `main` when this step fails: the run stops there with its
error and nothing is saved. -/
lemma mainRun_err_dbusConnect (env : MainEnv) (e : ZbusError)
   
    (herr : env.dbusConnectResult = .error e) :
    mainRun env =
      { result := .error (.dbus e), trace := fullTrace.take 2, saved := none } := by
  have ek : flow2 env =
      { trace := fullTrace.take 2, st := .error (.dbus e) } := by
    rw [flow2, flow1, stepFlow_of_ok _ _ rfl]
    simp [herr, fullTrace]
  have e16 : flow16 env =
      { trace := fullTrace.take 2, st := .error (.dbus e) } := by
    rw [flow16, flow15, flow14, flow13, flow12, flow11, flow10, flow9, flow8, flow7, flow6, flow5, flow4, flow3, ek]
    simp only [stepFlow_err_lit]
  rw [mainRun, e16, finishRun_of_err rfl]

/-- Shape of `main` when this step fails: the run stops there with its
error and nothing is saved. -/
lemma mainRun_err_requestName (env : MainEnv) (e : ZbusError)
    (h2 : env.dbusConnectResult = .ok ())
    (herr : env.requestNameResult = .error e) :
    mainRun env =
      { result := .error (.dbus e), trace := fullTrace.take 3, saved := none } := by
  have ek : flow3 env =
      { trace := fullTrace.take 3, st := .error (.dbus e) } := by
    rw [flow3, flow2_ok env h2, stepFlow_of_ok _ _ rfl]
    simp [herr, fullTrace]
  have e16 : flow16 env =
      { trace := fullTrace.take 3, st := .error (.dbus e) } := by
    rw [flow16, flow15, flow14, flow13, flow12, flow11, flow10, flow9, flow8, flow7, flow6, flow5, flow4, ek]
    simp only [stepFlow_err_lit]
  rw [mainRun, e16, finishRun_of_err rfl]

/-- Shape of `main` when this step fails: the run stops there with its
error and nothing is saved. -/
lemma mainRun_err_tempsNew (env : MainEnv) (e : SensorError)
    (h2 : env.dbusConnectResult = .ok ()) (h3 : env.requestNameResult = .ok ())
    (herr : env.tempsNewResult = .error e) :
    mainRun env =
      { result := .error (.sensor e), trace := fullTrace.take 4, saved := none } := by
  have ek : flow4 env =
      { trace := fullTrace.take 4, st := .error (.sensor e) } := by
    rw [flow4, flow3_ok env h2 h3, stepFlow_of_ok _ _ rfl]
    simp [herr, fullTrace]
  have e16 : flow16 env =
      { trace := fullTrace.take 4, st := .error (.sensor e) } := by
    rw [flow16, flow15, flow14, flow13, flow12, flow11, flow10, flow9, flow8, flow7, flow6, flow5, ek]
    simp only [stepFlow_err_lit]
  rw [mainRun, e16, finishRun_of_err rfl]

/-- Shape of `main` when this step fails: the run stops there with its
error and nothing is saved. -/
lemma mainRun_err_openEc (env : MainEnv) (e : IoError)
    (h2 : env.dbusConnectResult = .ok ()) (h3 : env.requestNameResult = .ok ()) (h4 : env.tempsNewResult = .ok ())
    (herr : openEcDevice env.fromModeResult env.tryDefaultResult = .error e) :
    mainRun env =
      { result := .error (.openDev e), trace := fullTrace.take 5, saved := none } := by
  have ek : flow5 env =
      { trace := fullTrace.take 5, st := .error (.openDev e) } := by
    rw [flow5, flow4_ok env h2 h3 h4, stepFlow_of_ok _ _ rfl]
    simp [herr, fullTrace]
  have e16 : flow16 env =
      { trace := fullTrace.take 5, st := .error (.openDev e) } := by
    rw [flow16, flow15, flow14, flow13, flow12, flow11, flow10, flow9, flow8, flow7, flow6, ek]
    simp only [stepFlow_err_lit]
  rw [mainRun, e16, finishRun_of_err rfl]

/-- Shape of `main` when this step fails: the run stops there with its
error and nothing is saved. -/
lemma mainRun_err_signalsNew (env : MainEnv) (e : IoError) (d : EcDevice)
    (h2 : env.dbusConnectResult = .ok ()) (h3 : env.requestNameResult = .ok ()) (h4 : env.tempsNewResult = .ok ()) (h5 : openEcDevice env.fromModeResult env.tryDefaultResult = .ok d)
    (herr : env.signalsNewResult = .error e) :
    mainRun env =
      { result := .error (.signalErr e), trace := fullTrace.take 7, saved := none } := by
  have ek : flow7 env =
      { trace := fullTrace.take 7, st := .error (.signalErr e) } := by
    rw [flow7, flow6_ok env d h2 h3 h4 h5, stepFlow_of_ok _ _ rfl]
    simp [herr, fullTrace]
  have e16 : flow16 env =
      { trace := fullTrace.take 7, st := .error (.signalErr e) } := by
    rw [flow16, flow15, flow14, flow13, flow12, flow11, flow10, flow9, flow8, ek]
    simp only [stepFlow_err_lit]
  rw [mainRun, e16, finishRun_of_err rfl]

/-- Shape of `main` when this step fails: the run stops there with its
error and nothing is saved. -/
lemma mainRun_err_loaderRegister (env : MainEnv) (e : ZbusError) (d : EcDevice)
    (h2 : env.dbusConnectResult = .ok ()) (h3 : env.requestNameResult = .ok ()) (h4 : env.tempsNewResult = .ok ()) (h5 : openEcDevice env.fromModeResult env.tryDefaultResult = .ok d) (h6 : env.signalsNewResult = .ok ())
    (herr : env.loaderRegisterResult = .error e) :
    mainRun env =
      { result := .error (.dbus e), trace := fullTrace.take 10, saved := none } := by
  have ek : flow10 env =
      { trace := fullTrace.take 10, st := .error (.dbus e) } := by
    rw [flow10, flow9_ok env d h2 h3 h4 h5 h6, stepFlow_of_ok _ _ rfl]
    simp [herr, fullTrace]
  have e16 : flow16 env =
      { trace := fullTrace.take 10, st := .error (.dbus e) } := by
    rw [flow16, flow15, flow14, flow13, flow12, flow11, ek]
    simp only [stepFlow_err_lit]
  rw [mainRun, e16, finishRun_of_err rfl]

/-- Shape of `main` when this step fails: the run stops there with its
error and nothing is saved. -/
lemma mainRun_err_awaitSignalHandler (env : MainEnv) (e : ServiceError) (d : EcDevice)
    (h2 : env.dbusConnectResult = .ok ()) (h3 : env.requestNameResult = .ok ()) (h4 : env.tempsNewResult = .ok ()) (h5 : openEcDevice env.fromModeResult env.tryDefaultResult = .ok d) (h6 : env.signalsNewResult = .ok ()) (h7 : env.loaderRegisterResult = .ok ())
    (herr : env.signalHandlerResult = .error e) :
    mainRun env =
      { result := .error e, trace := fullTrace.take 13, saved := none } := by
  have ek : flow13 env =
      { trace := fullTrace.take 13, st := .error e } := by
    rw [flow13, flow12_ok env d h2 h3 h4 h5 h6 h7, stepFlow_of_ok _ _ rfl]
    simp [herr, fullTrace]
  have e16 : flow16 env =
      { trace := fullTrace.take 13, st := .error e } := by
    rw [flow16, flow15, flow14, ek]
    simp only [stepFlow_err_lit]
  rw [mainRun, e16, finishRun_of_err rfl]

/-- Shape of `main` when this step fails: the run stops there with its
error and nothing is saved. -/
lemma mainRun_err_awaitManagerTask (env : MainEnv) (e : ServiceError) (d : EcDevice)
    (h2 : env.dbusConnectResult = .ok ()) (h3 : env.requestNameResult = .ok ()) (h4 : env.tempsNewResult = .ok ()) (h5 : openEcDevice env.fromModeResult env.tryDefaultResult = .ok d) (h6 : env.signalsNewResult = .ok ()) (h7 : env.loaderRegisterResult = .ok ()) (h8 : env.signalHandlerResult = .ok ())
    (herr : env.managerTaskResult = .error e) :
    mainRun env =
      { result := .error e, trace := fullTrace.take 14, saved := none } := by
  have ek : flow14 env =
      { trace := fullTrace.take 14, st := .error e } := by
    rw [flow14, flow13_ok env d h2 h3 h4 h5 h6 h7 h8, stepFlow_of_ok _ _ rfl]
    simp [herr, fullTrace]
  have e16 : flow16 env =
      { trace := fullTrace.take 14, st := .error e } := by
    rw [flow16, flow15, ek]
    simp only [stepFlow_err_lit]
  rw [mainRun, e16, finishRun_of_err rfl]

/-- Shape of `main` when this step fails: the run stops there with its
error and nothing is saved. -/
lemma mainRun_err_awaitTempsTask (env : MainEnv) (e : ServiceError) (d : EcDevice) (speeds : List Rat)
    (h2 : env.dbusConnectResult = .ok ()) (h3 : env.requestNameResult = .ok ()) (h4 : env.tempsNewResult = .ok ()) (h5 : openEcDevice env.fromModeResult env.tryDefaultResult = .ok d) (h6 : env.signalsNewResult = .ok ()) (h7 : env.loaderRegisterResult = .ok ()) (h8 : env.signalHandlerResult = .ok ()) (h9 : env.managerTaskResult = .ok speeds)
    (herr : env.tempsTaskResult = .error e) :
    mainRun env =
      { result := .error e, trace := fullTrace.take 15, saved := none } := by
  have ek : flow15 env =
      { trace := fullTrace.take 15, st := .error e } := by
    rw [flow15, flow14_ok env d speeds h2 h3 h4 h5 h6 h7 h8 h9, stepFlow_of_ok _ _ rfl]
    simp [herr, fullTrace]
  have e16 : flow16 env =
      { trace := fullTrace.take 15, st := .error e } := by
    rw [flow16, ek]
    simp only [stepFlow_err_lit]
  rw [mainRun, e16, finishRun_of_err rfl]

/-- Shape of `main` when this step fails: the run stops there with its
error and nothing is saved. -/
lemma mainRun_err_loaderLookup (env : MainEnv) (e : ZbusError) (d : EcDevice) (speeds : List Rat)
    (h2 : env.dbusConnectResult = .ok ()) (h3 : env.requestNameResult = .ok ()) (h4 : env.tempsNewResult = .ok ()) (h5 : openEcDevice env.fromModeResult env.tryDefaultResult = .ok d) (h6 : env.signalsNewResult = .ok ()) (h7 : env.loaderRegisterResult = .ok ()) (h8 : env.signalHandlerResult = .ok ()) (h9 : env.managerTaskResult = .ok speeds) (h10 : env.tempsTaskResult = .ok ())
    (herr : env.loaderLookupResult = .error e) :
    mainRun env =
      { result := .error (.dbus e), trace := fullTrace.take 16, saved := none } := by
  have ek : flow16 env =
      { trace := fullTrace.take 16, st := .error (.dbus e) } := by
    rw [flow16, flow15_ok env d speeds h2 h3 h4 h5 h6 h7 h8 h9 h10, stepFlow_of_ok _ _ rfl]
    simp [herr, fullTrace]
  have e16 := ek
  rw [mainRun, e16, finishRun_of_err rfl]

/-- If a run of `main` reached `save_config`, every collaborator call before
it succeeded. -/
lemma mainRun_save_mem (env : MainEnv)
    (h : StepLabel.saveConfig ∈ (mainRun env).trace) :
    ∃ d speeds lc,
      env.dbusConnectResult = .ok () ∧ env.requestNameResult = .ok () ∧
      env.tempsNewResult = .ok () ∧
      openEcDevice env.fromModeResult env.tryDefaultResult = .ok d ∧
      env.signalsNewResult = .ok () ∧ env.loaderRegisterResult = .ok () ∧
      env.signalHandlerResult = .ok () ∧ env.managerTaskResult = .ok speeds ∧
      env.tempsTaskResult = .ok () ∧ env.loaderLookupResult = .ok lc := by
  cases h2 : env.dbusConnectResult with
  | error e => exact absurd h (by rw [mainRun_err_dbusConnect env e h2]; simp [fullTrace])
  | ok u =>
    cases u
    cases h3 : env.requestNameResult with
    | error e => exact absurd h (by rw [mainRun_err_requestName env e h2 h3]; simp [fullTrace])
    | ok u =>
      cases u
      cases h4 : env.tempsNewResult with
      | error e => exact absurd h (by rw [mainRun_err_tempsNew env e h2 h3 h4]; simp [fullTrace])
      | ok u =>
        cases u
        cases h5 : openEcDevice env.fromModeResult env.tryDefaultResult with
        | error e => exact absurd h (by rw [mainRun_err_openEc env e h2 h3 h4 h5]; simp [fullTrace])
        | ok d =>
          cases h6 : env.signalsNewResult with
          | error e => exact absurd h (by rw [mainRun_err_signalsNew env e d h2 h3 h4 h5 h6]; simp [fullTrace])
          | ok u =>
            cases u
            cases h7 : env.loaderRegisterResult with
            | error e => exact absurd h (by rw [mainRun_err_loaderRegister env e d h2 h3 h4 h5 h6 h7]; simp [fullTrace])
            | ok u =>
              cases u
              cases h8 : env.signalHandlerResult with
              | error e => exact absurd h (by rw [mainRun_err_awaitSignalHandler env e d h2 h3 h4 h5 h6 h7 h8]; simp [fullTrace])
              | ok u =>
                cases u
                cases h9 : env.managerTaskResult with
                | error e => exact absurd h (by rw [mainRun_err_awaitManagerTask env e d h2 h3 h4 h5 h6 h7 h8 h9]; simp [fullTrace])
                | ok speeds =>
                  cases h10 : env.tempsTaskResult with
                  | error e => exact absurd h (by rw [mainRun_err_awaitTempsTask env e d speeds h2 h3 h4 h5 h6 h7 h8 h9 h10]; simp [fullTrace])
                  | ok u =>
                    cases u
                    cases h11 : env.loaderLookupResult with
                    | error e => exact absurd h (by rw [mainRun_err_loaderLookup env e d speeds h2 h3 h4 h5 h6 h7 h8 h9 h10 h11]; simp [fullTrace])
                    | ok lc =>
                      exact ⟨d, speeds, lc, rfl, rfl, rfl, rfl, rfl, rfl, rfl, rfl, rfl, rfl⟩

/-- Default probing fails exactly when every probed strategy fails. -/
lemma tryDefaultOf_err_iff (probes : List (Except IoError EcDevice)) :
    (∃ e, tryDefaultOf probes = .error e) ↔
      ∀ p ∈ probes, ∃ e, p = .error e := by
  induction probes with
  | nil => simp [tryDefaultOf]
  | cons p rest ih =>
    cases p with
    | ok dev => simp [tryDefaultOf]
    | error e =>
      simp only [tryDefaultOf, List.mem_cons]
      constructor
      · rintro ⟨e', he'⟩ q (rfl | hq)
        · exact ⟨e, rfl⟩
        · exact ih.mp ⟨e', he'⟩ q hq
      · intro hall
        exact ih.mpr fun q hq => hall q (.inr hq)

/-- Once the EC device has been opened, no later step of `main` can produce
an `OpenDev` error (given that the three joined tasks cannot). -/
lemma mainRun_no_openDev (env : MainEnv) (dev : EcDevice)
    (h2 : env.dbusConnectResult = .ok ()) (h3 : env.requestNameResult = .ok ())
    (h4 : env.tempsNewResult = .ok ())
    (h5 : openEcDevice env.fromModeResult env.tryDefaultResult = .ok dev)
    (hs : ∀ e, env.signalHandlerResult ≠ .error (.openDev e))
    (hm : ∀ e, env.managerTaskResult ≠ .error (.openDev e))
    (hp : ∀ e, env.tempsTaskResult ≠ .error (.openDev e)) :
    ∀ e, (mainRun env).result ≠ .error (.openDev e) := by
  intro e he
  cases h6 : env.signalsNewResult with
  | error e6 =>
    rw [mainRun_err_signalsNew env e6 dev h2 h3 h4 h5 h6] at he
    simp at he
  | ok u =>
    cases u
    cases h7 : env.loaderRegisterResult with
    | error e7 =>
      rw [mainRun_err_loaderRegister env e7 dev h2 h3 h4 h5 h6 h7] at he
      simp at he
    | ok u =>
      cases u
      cases h8 : env.signalHandlerResult with
      | error e8 =>
        rw [mainRun_err_awaitSignalHandler env e8 dev h2 h3 h4 h5 h6 h7 h8] at he
        simp only at he
        exact hs e (by rw [h8, he])
      | ok u =>
        cases u
        cases h9 : env.managerTaskResult with
        | error e9 =>
          rw [mainRun_err_awaitManagerTask env e9 dev h2 h3 h4 h5 h6 h7 h8 h9] at he
          simp only at he
          injection he with he'
          exact hm e (by rw [h9, he'])
        | ok speeds =>
          cases h10 : env.tempsTaskResult with
          | error e10 =>
            rw [mainRun_err_awaitTempsTask env e10 dev speeds
              h2 h3 h4 h5 h6 h7 h8 h9 h10] at he
            simp only at he
            exact hp e (by rw [h10, he])
          | ok u =>
            cases u
            cases h11 : env.loaderLookupResult with
            | error e11 =>
              rw [mainRun_err_loaderLookup env e11 dev speeds
                h2 h3 h4 h5 h6 h7 h8 h9 h10 h11] at he
              simp at he
            | ok lc =>
              rw [mainRun_ok env dev speeds lc h2 h3 h4 h5 h6 h7 h8 h9 h10 h11] at he
              cases hsv : env.saveResult with
              | ok u => rw [hsv] at he; simp at he
              | error esv => rw [hsv] at he; simp at he

end MainLemmas

/-- Claim C1: the spec says the shutdown notification is broadcast once and
observed by every listening task.  The code instead uses one mpmc channel
(`channel::bounded(1)`) with two cloned receivers, so the single `true` sent
by the signal handler is consumed by exactly one listener: the second
receiver gets `RecvError` once the sender is dropped.  If the forwarder is
the one that misses, it aborts without synthesizing the `Shutdown` event and
the manager loop never exits; if the temperature task is the one that
misses, it fails with `ShutdownChannelRecv`, which `main` propagates before
ever reaching `save_config`. -/
theorem shutdown_channel_not_broadcast :
    ((signalHandlerRun { buf := [], closed := false } [Signal.sigterm]).chan.buf
        = [true]
      ∧ afterSenderDrop
          (signalHandlerRun { buf := [], closed := false } [Signal.sigterm]).chan
        = { buf := [true], closed := true })
  ∧ ((({ buf := [true], closed := true } : BoolChannel).recv).1 = .msg true
      ∧ ((({ buf := [true], closed := true } : BoolChannel).recv).2.recv).1
          = .recvError)
  ∧ (forwarderRun .recvError
      = ([], some (.error .shutdownChannelRecv)))
  ∧ ((eventLoopRun [.internal (.setAuto true), .internal (.setConfig "Default")]).2
      = false)
  ∧ ((tempsRun (fun _ => .ok 50) [raceOfRecv .recvError] 0 []).1
      = some (.error .shutdownChannelRecv))
  ∧ ((mainRun { envOk with tempsTaskResult := .error .shutdownChannelRecv }).result
        = .error .shutdownChannelRecv
      ∧ (mainRun { envOk with tempsTaskResult := .error .shutdownChannelRecv }).saved
        = none) := by
  decide

/-- Claim C2: in every execution of `main`, `save_config` is called only
after the manager task has been fully joined with its final target speeds
returned: whenever the trace reaches `save_config`, that step is the last,
the manager join precedes it, and the join yielded the final speeds. -/
theorem save_after_manager_join (env : MainEnv)
    (h : StepLabel.saveConfig ∈ (mainRun env).trace) :
    ∃ speeds, (mainRun env).trace = fullTrace.take 16 ++ [.saveConfig] ∧
      StepLabel.awaitManagerTask ∈ fullTrace.take 16 ∧
      StepLabel.saveConfig ∉ fullTrace.take 16 ∧
      env.managerTaskResult = .ok speeds := by
  obtain ⟨d, speeds, lc, h2, h3, h4, h5, h6, h7, h8, h9, h10, h11⟩ :=
    mainRun_save_mem env h
  refine ⟨speeds, ?_, by decide, by decide, h9⟩
  rw [mainRun_ok env d speeds lc h2 h3 h4 h5 h6 h7 h8 h9 h10 h11]
  simp [fullTrace]

/-- Witness for C2 at the concrete all-success environment. -/
theorem save_after_manager_join_witness :
    ∃ speeds, (mainRun envOk).trace = fullTrace.take 16 ++ [.saveConfig] ∧
      StepLabel.awaitManagerTask ∈ fullTrace.take 16 ∧
      StepLabel.saveConfig ∉ fullTrace.take 16 ∧
      envOk.managerTaskResult = .ok speeds :=
  save_after_manager_join envOk (by decide)

/-- Claim C3: on graceful shutdown the supervisor persists exactly the EC
access mode actually used (the mode of the successfully opened device,
captured before the manager takes ownership at `managerNew`), the currently
selected fan-configuration name, and the manager's final per-fan target
speeds, written once via `save_config`. -/
theorem shutdown_persists_state (env : MainEnv) (d : EcDevice)
    (speeds : List Rat) (name : String)
    (h2 : env.dbusConnectResult = .ok ()) (h3 : env.requestNameResult = .ok ())
    (h4 : env.tempsNewResult = .ok ())
    (h5 : openEcDevice env.fromModeResult env.tryDefaultResult = .ok d)
    (h6 : env.signalsNewResult = .ok ()) (h7 : env.loaderRegisterResult = .ok ())
    (h8 : env.signalHandlerResult = .ok ())
    (h9 : env.managerTaskResult = .ok speeds)
    (h10 : env.tempsTaskResult = .ok ())
    (h11 : env.loaderLookupResult = .ok (some name))
    (hne : speeds ≠ [])
    (hsave : env.saveResult = .ok ()) :
    (mainRun env).result = .ok ()
  ∧ (mainRun env).saved =
      some { core := { ec_access_mode := d.mode }
             fan_config :=
               { selected_fan_configuration := name, target_speeds := speeds }
             sensors := (loadedConfig env.loadConfigResult).sensors }
  ∧ (mainRun env).trace.count .saveConfig = 1
  ∧ (mainRun env).trace.indexOf StepLabel.captureMode
      < (mainRun env).trace.indexOf StepLabel.managerNew := by
  rw [mainRun_ok env d speeds (some name) h2 h3 h4 h5 h6 h7 h8 h9 h10 h11]
  refine ⟨by simp [hsave], ?_, ?_, ?_⟩
  · show some (persistedConfig (loadedConfig env.loadConfigResult) d.mode
      (some name) speeds) = _
    simp only [persistedConfig, Option.some.injEq]
    rw [if_neg (by simpa using hne)]
  · show fullTrace.count StepLabel.saveConfig = 1
    decide
  · show fullTrace.indexOf StepLabel.captureMode
      < fullTrace.indexOf StepLabel.managerNew
    decide

/-- Witness for C3: the spec's own example — selected configuration
`"Default"`, final speeds `[42.0, 55.5]`, device opened in `devFile` mode. -/
theorem shutdown_persists_state_witness :
    (mainRun envOk).result = .ok ()
  ∧ (mainRun envOk).saved =
      some { core := { ec_access_mode := EcAccessMode.devFile }
             fan_config :=
               { selected_fan_configuration := "Default"
                 target_speeds := [42, 55.5] }
             sensors := { only := ["CPU"] } }
  ∧ (mainRun envOk).trace.count .saveConfig = 1
  ∧ (mainRun envOk).trace.indexOf StepLabel.captureMode
      < (mainRun envOk).trace.indexOf StepLabel.managerNew :=
  shutdown_persists_state envOk { mode := .devFile } [42, 55.5] "Default"
    rfl rfl rfl rfl rfl rfl rfl rfl rfl rfl (by decide) rfl

/-- Claim C4: the signal dispatch itself is faithful — `SIGHUP` and unknown
signals are ignored with no send, no stream close and the handler keeps
looping, while each of `SIGTERM`/`SIGINT`/`SIGQUIT` sends the single shutdown
notification, closes the signal stream and breaks — but the claimed
consequence "the process proceeds to graceful shutdown with state
persistence" is unreachable: once the handler task drops the only sender,
the one queued `true` is consumed by exactly one of the two listeners.
Under one schedule the temperature task exits cleanly and the forwarder gets
`RecvError`, never synthesizing the `Shutdown` event the manager loop needs
to exit; under the other the forwarder synthesizes it but the temperature
task gets `RecvError`, and `main` propagates `ShutdownChannelRecv` with
`save_config` never reached. -/
theorem termination_signal_persistence_unreachable :
    (signalHandlerRun { buf := [], closed := false } [Signal.sighup]
      = { chan := { buf := [], closed := false }, handleClosed := false
          leftover := [] })
  ∧ (signalHandlerRun { buf := [], closed := false } [Signal.otherSig 31]
      = { chan := { buf := [], closed := false }, handleClosed := false
          leftover := [] })
  ∧ (signalHandlerRun { buf := [], closed := false } [Signal.sigterm]
      = { chan := { buf := [true], closed := false }, handleClosed := true
          leftover := [] })
  ∧ (signalHandlerRun { buf := [], closed := false } [Signal.sigint]
      = { chan := { buf := [true], closed := false }, handleClosed := true
          leftover := [] })
  ∧ (signalHandlerRun { buf := [], closed := false } [Signal.sigquit]
      = { chan := { buf := [true], closed := false }, handleClosed := true
          leftover := [] })
  ∧ (tempsRun (fun _ => .ok 50)
        [raceOfRecv (BoolChannel.recv { buf := [true], closed := true }).1] 0 []
        = (some (.ok ()), [])
      ∧ forwarderRun
          (BoolChannel.recv
            ((BoolChannel.recv { buf := [true], closed := true }).2)).1
        = ([], some (.error .shutdownChannelRecv)))
  ∧ (forwarderRun (BoolChannel.recv { buf := [true], closed := true }).1
        = ([.external .shutdown], some (.ok ()))
      ∧ tempsRun (fun _ => .ok 50)
          [raceOfRecv
            (BoolChannel.recv
              ((BoolChannel.recv { buf := [true], closed := true }).2)).1] 0 []
        = (some (.error .shutdownChannelRecv), [])
      ∧ StepLabel.saveConfig ∉
          (mainRun
            { envOk with tempsTaskResult := .error .shutdownChannelRecv }).trace) := by
  decide

/-- The manager's event loop consumes every queued event in order and, on
the synthesized `Shutdown` event, returns through that same consumption
path. -/
lemma eventLoopRun_append_shutdown (q : List Event)
    (h : Event.external .shutdown ∉ q) :
    eventLoopRun (q ++ [.external .shutdown])
      = (q ++ [.external .shutdown], true) := by
  induction q with
  | nil => rfl
  | cons e rest ih =>
    simp only [List.mem_cons, not_or] at h
    obtain ⟨hne, hrest⟩ := h
    have ih' := ih hrest
    cases e with
    | internal ie => simp [eventLoopRun, ih']
    | external ee =>
      cases ee with
      | tempChange t => simp [eventLoopRun, ih']
      | shutdown => exact absurd rfl hne

/-- Claim C5: when the forwarder receives the shutdown notification from the
shutdown channel, it sends `Event::External(ExternalEvent::Shutdown)` onto
the manager's event channel, and the manager's event loop terminates by
consuming that event through the same path as every other event (each
pending event is consumed in order, then the `Shutdown` event is consumed
and the loop returns) — not via a separate cancellation flag. -/
theorem forwarder_synthesizes_shutdown (q : List Event) (v : Bool)
    (h : Event.external .shutdown ∉ q) :
    forwarderRun (.msg v) = ([.external .shutdown], some (.ok ()))
  ∧ eventLoopRun (q ++ [.external .shutdown])
      = (q ++ [.external .shutdown], true) :=
  ⟨rfl, eventLoopRun_append_shutdown q h⟩

/-- Witness for C5: a queue holding one pending command event. -/
theorem forwarder_synthesizes_shutdown_witness :
    forwarderRun (.msg true) = ([.external .shutdown], some (.ok ()))
  ∧ eventLoopRun ([.internal (.setAuto false)] ++ [.external .shutdown])
      = ([.internal (.setAuto false)] ++ [.external .shutdown], true) :=
  forwarder_synthesizes_shutdown [.internal (.setAuto false)] true (by decide)

/-- Claim C6: each iteration of the temperature task races the fixed
poll-interval timeout against the shutdown receive: a timeout is not an
error — the task samples `get_temp` and sends an `External::TempChange`
event carrying the sampled value, then loops; receiving the shutdown
notification `true` exits the loop returning success. -/
theorem temps_task_race (getTemp : Nat → Except SensorError Rat)
    (rest : List RaceOutcome) (k : Nat) (sent : List Event) (t : Rat)
    (h : getTemp k = .ok t) :
    tempsRun getTemp (RaceOutcome.timedOut :: rest) k sent
      = tempsRun getTemp rest (k + 1) (sent ++ [.external (.tempChange t)])
  ∧ tempsRun getTemp (RaceOutcome.gotMsg true :: rest) k sent
      = (some (.ok ()), sent) := by
  constructor
  · simp [tempsRun, h]
  · simp [tempsRun]

/-- Witness for C6 at a concrete sampler and script. -/
theorem temps_task_race_witness :
    tempsRun (fun _ => .ok 50) [RaceOutcome.timedOut, .gotMsg true] 0 []
      = tempsRun (fun _ => .ok 50) [.gotMsg true] 1
          ([] ++ [.external (.tempChange 50)])
  ∧ tempsRun (fun _ => .ok 50) [RaceOutcome.gotMsg true, .timedOut] 0 []
      = (some (.ok ()), []) :=
  ⟨(temps_task_race (fun _ => .ok 50) [.gotMsg true] 0 [] 50 rfl).1,
   (temps_task_race (fun _ => .ok 50) [.timedOut] 0 [] 50 rfl).2⟩

/-- Claim C7: EC opening first attempts the strategy named by the persisted
mode and on failure falls back to default probing; given that the joined
tasks cannot themselves produce a device-open error, `main` returns the
fatal `OpenDev` error if and only if both the named strategy and every
probed default strategy fail — the EC being accessible via any strategy
prevents this error. -/
theorem ec_open_fallback (env : MainEnv)
    (probes : List (Except IoError EcDevice))
    (h2 : env.dbusConnectResult = .ok ()) (h3 : env.requestNameResult = .ok ())
    (h4 : env.tempsNewResult = .ok ())
    (htd : env.tryDefaultResult = tryDefaultOf probes)
    (hs : ∀ e, env.signalHandlerResult ≠ .error (.openDev e))
    (hm : ∀ e, env.managerTaskResult ≠ .error (.openDev e))
    (hp : ∀ e, env.tempsTaskResult ≠ .error (.openDev e)) :
    (∃ e, (mainRun env).result = .error (.openDev e)) ↔
      ((∃ e, env.fromModeResult = .error e) ∧
        ∀ p ∈ probes, ∃ e, p = .error e) := by
  cases hfm : env.fromModeResult with
  | ok dev =>
    have hopen : openEcDevice env.fromModeResult env.tryDefaultResult
        = .ok dev := by
      simp [openEcDevice, hfm]
    constructor
    · rintro ⟨e, he⟩
      exact absurd he (mainRun_no_openDev env dev h2 h3 h4 hopen hs hm hp e)
    · rintro ⟨⟨e, hfm'⟩, _⟩
      cases hfm'
  | error efm =>
    cases htd' : tryDefaultOf probes with
    | ok dev =>
      have hopen : openEcDevice env.fromModeResult env.tryDefaultResult
          = .ok dev := by
        simp [openEcDevice, hfm, htd, htd']
      constructor
      · rintro ⟨e, he⟩
        exact absurd he (mainRun_no_openDev env dev h2 h3 h4 hopen hs hm hp e)
      · rintro ⟨_, hall⟩
        obtain ⟨e', htd''⟩ := (tryDefaultOf_err_iff probes).mpr hall
        rw [htd'] at htd''
        cases htd''
    | error etd =>
      have hopen : openEcDevice env.fromModeResult env.tryDefaultResult
          = .error etd := by
        simp [openEcDevice, hfm, htd, htd']
      have hres := mainRun_err_openEc env etd h2 h3 h4 hopen
      refine iff_of_true ⟨etd, by rw [hres]⟩
        ⟨⟨efm, rfl⟩, (tryDefaultOf_err_iff probes).mp ⟨etd, htd'⟩⟩

/-- Witness for C7: both the named strategy and both probes fail. -/
theorem ec_open_fallback_witness :
    (∃ e, (mainRun envFail).result = .error (.openDev e)) ↔
      ((∃ e, envFail.fromModeResult = .error e) ∧
        ∀ p ∈ [(.error { msg := "probe 1 failed" } : Except IoError EcDevice),
               .error { msg := "probe 2 failed" }], ∃ e, p = .error e) :=
  ec_open_fallback envFail
    [.error { msg := "probe 1 failed" }, .error { msg := "probe 2 failed" }]
    rfl rfl rfl rfl
    (fun _ h => Except.noConfusion h)
    (fun _ h => Except.noConfusion h)
    (fun _ h => Except.noConfusion h)

/-- Claim C8: sensor errors are fatal to the whole process — a failed
`Temperatures::new` makes `main` return the `Sensor` error immediately (the
EC device is never opened and nothing is saved); a failed `get_temp` inside
the sampling task makes the task return the `Sensor` error; and `main`
propagates the sampling task's error as its own result instead of
continuing. -/
theorem sensor_errors_fatal :
    (∀ (env : MainEnv) (e : SensorError),
      env.dbusConnectResult = .ok () → env.requestNameResult = .ok () →
      env.tempsNewResult = .error e →
      mainRun env =
        { result := .error (.sensor e), trace := fullTrace.take 4
          saved := none })
  ∧ (∀ (getTemp : Nat → Except SensorError Rat) (script : List RaceOutcome)
      (k : Nat) (sent : List Event) (e : SensorError),
      getTemp k = .error e →
      tempsRun getTemp (RaceOutcome.timedOut :: script) k sent
        = (some (.error (.sensor e)), sent))
  ∧ (∀ (env : MainEnv) (d : EcDevice) (speeds : List Rat) (e : SensorError),
      env.dbusConnectResult = .ok () → env.requestNameResult = .ok () →
      env.tempsNewResult = .ok () →
      openEcDevice env.fromModeResult env.tryDefaultResult = .ok d →
      env.signalsNewResult = .ok () → env.loaderRegisterResult = .ok () →
      env.signalHandlerResult = .ok () → env.managerTaskResult = .ok speeds →
      env.tempsTaskResult = .error (.sensor e) →
      (mainRun env).result = .error (.sensor e) ∧ (mainRun env).saved = none) := by
  refine ⟨?_, ?_, ?_⟩
  · intro env e h2 h3 h4
    exact mainRun_err_tempsNew env e h2 h3 h4
  · intro getTemp script k sent e h
    simp [tempsRun, h]
  · intro env d speeds e h2 h3 h4 h5 h6 h7 h8 h9 h10
    rw [mainRun_err_awaitTempsTask env (.sensor e) d speeds
      h2 h3 h4 h5 h6 h7 h8 h9 h10]
    exact ⟨rfl, rfl⟩

/-- Witness for C8 at concrete environments and sampler. -/
theorem sensor_errors_fatal_witness :
    mainRun { envOk with tempsNewResult := .error { msg := "no sensor" } }
      = { result := .error (.sensor { msg := "no sensor" })
          trace := fullTrace.take 4, saved := none }
  ∧ tempsRun (fun _ => .error { msg := "sensor gone" })
      [RaceOutcome.timedOut] 0 []
      = (some (.error (.sensor { msg := "sensor gone" })), [])
  ∧ ((mainRun { envOk with
        tempsTaskResult := .error (.sensor { msg := "sensor gone" }) }).result
      = .error (.sensor { msg := "sensor gone" })
    ∧ (mainRun { envOk with
        tempsTaskResult := .error (.sensor { msg := "sensor gone" }) }).saved
      = none) :=
  ⟨sensor_errors_fatal.1 _ _ rfl rfl rfl,
   sensor_errors_fatal.2.1 _ [] 0 [] _ rfl,
   sensor_errors_fatal.2.2 _ { mode := .devFile } [42, 55.5] _
     rfl rfl rfl rfl rfl rfl rfl rfl rfl⟩

/-- Claim C9: a failed configuration load at startup is non-fatal — `main`
continues exactly as it would with the built-in default configuration, for
every load error and whatever happens afterwards. -/
theorem config_load_nonfatal (env : MainEnv) (e : ConfigError) :
    loadedConfig (.error e) = Config.default
  ∧ mainRun { env with loadConfigResult := .error e }
      = mainRun { env with loadConfigResult := .ok Config.default } :=
  ⟨rfl, rfl⟩

/-- Field-level description of the configuration patched at shutdown. -/
lemma persistedConfig_fields (cfg : Config) (mode : EcAccessMode)
    (lc : Option String) (speeds : List Rat) :
    (persistedConfig cfg mode lc speeds).core.ec_access_mode = mode
  ∧ (persistedConfig cfg mode lc speeds).sensors = cfg.sensors
  ∧ (persistedConfig cfg mode lc speeds).fan_config.selected_fan_configuration
      = (match lc with
         | some n => n
         | none => cfg.fan_config.selected_fan_configuration)
  ∧ (persistedConfig cfg mode lc speeds).fan_config.target_speeds
      = (if speeds.isEmpty then cfg.fan_config.target_speeds else speeds) := by
  unfold persistedConfig
  cases lc <;> cases hsp : speeds.isEmpty <;> simp [hsp]

/-- Claim C10: at shutdown, `selected_fan_configuration` is overwritten only
when the loader currently holds a configuration and `target_speeds` only
when the manager's final list is non-empty; otherwise each keeps its
startup-loaded value, and every other configuration field except
`ec_access_mode` is untouched by the shutdown path. -/
theorem shutdown_persistence_frame (env : MainEnv) (d : EcDevice)
    (speeds : List Rat) (lc : Option String)
    (h2 : env.dbusConnectResult = .ok ()) (h3 : env.requestNameResult = .ok ())
    (h4 : env.tempsNewResult = .ok ())
    (h5 : openEcDevice env.fromModeResult env.tryDefaultResult = .ok d)
    (h6 : env.signalsNewResult = .ok ()) (h7 : env.loaderRegisterResult = .ok ())
    (h8 : env.signalHandlerResult = .ok ())
    (h9 : env.managerTaskResult = .ok speeds)
    (h10 : env.tempsTaskResult = .ok ())
    (h11 : env.loaderLookupResult = .ok lc) :
    ∃ s, (mainRun env).saved = some s
      ∧ (lc = none → s.fan_config.selected_fan_configuration =
          (loadedConfig env.loadConfigResult).fan_config.selected_fan_configuration)
      ∧ (∀ name, lc = some name →
          s.fan_config.selected_fan_configuration = name)
      ∧ (speeds = [] → s.fan_config.target_speeds =
          (loadedConfig env.loadConfigResult).fan_config.target_speeds)
      ∧ (speeds ≠ [] → s.fan_config.target_speeds = speeds)
      ∧ s.sensors = (loadedConfig env.loadConfigResult).sensors
      ∧ s.core.ec_access_mode = d.mode := by
  rw [mainRun_ok env d speeds lc h2 h3 h4 h5 h6 h7 h8 h9 h10 h11]
  obtain ⟨hcore, hsens, hsel, hspd⟩ :=
    persistedConfig_fields (loadedConfig env.loadConfigResult) d.mode lc speeds
  refine ⟨persistedConfig (loadedConfig env.loadConfigResult) d.mode lc speeds,
    rfl, ?_, ?_, ?_, ?_, hsens, hcore⟩
  · rintro rfl
    simpa using hsel
  · rintro name rfl
    simpa using hsel
  · rintro rfl
    simpa using hspd
  · intro hne
    rw [hspd, if_neg (by simpa using hne)]

/-- Witness for C10 at the concrete all-success environment. -/
theorem shutdown_persistence_frame_witness :
    ∃ s, (mainRun envOk).saved = some s
      ∧ (some "Default" = none → s.fan_config.selected_fan_configuration =
          (loadedConfig envOk.loadConfigResult).fan_config.selected_fan_configuration)
      ∧ (∀ name, some "Default" = some name →
          s.fan_config.selected_fan_configuration = name)
      ∧ ([(42 : Rat), 55.5] = [] → s.fan_config.target_speeds =
          (loadedConfig envOk.loadConfigResult).fan_config.target_speeds)
      ∧ ([(42 : Rat), 55.5] ≠ [] → s.fan_config.target_speeds = [42, 55.5])
      ∧ s.sensors = (loadedConfig envOk.loadConfigResult).sensors
      ∧ s.core.ec_access_mode = EcDevice.mode { mode := .devFile } :=
  shutdown_persistence_frame envOk { mode := .devFile } [42, 55.5]
    (some "Default") rfl rfl rfl rfl rfl rfl rfl rfl rfl rfl

end Fancy
